import Mathlib

/-
Verification of the wssocks SOCKS5-over-WebSocket proxy (src/src/lib.rs).

The development shallowly embeds the protocol logic of `handle_socket` and
the byte-stream adapter `WebSocketConnection` (its `poll_read` method).
Bytes are modelled as `Nat` values (the Rust code manipulates `u8` vectors,
so concrete inputs always satisfy `b < 256`); messages are `List Nat`.
Panics (out-of-bounds indexing, `unwrap` on `Err`, `ReadBuf::put_slice`
capacity violations) are modelled explicitly as a `panicked` outcome.
-/

namespace WsSocks

/-- Result of one `socket.recv()` call as seen by `handle_socket`:
`binary data` is `Some(Ok(Message::Binary(data)))`, `nonBinary` is
`Some(Ok(_))` for any other message kind, `recvError` is `Some(Err(_))`,
and `closed` is `None`. -/
inductive RecvItem where
  | binary (data : List Nat)
  | nonBinary
  | recvError
  | closed
deriving DecidableEq, Repr

/-- Environment of one session of `handle_socket`: the two inbound
messages and the results of the effectful operations the code performs.
The field `sendDiscarded` is the result of the reply sends whose result
the code discards with `let _ = socket.send(..)`; it is recorded to make
explicit that `handle_socket` never reads it. -/
structure Env where
  msg1 : RecvItem
  send1Ok : Bool
  msg2 : RecvItem
  sendDiscarded : Bool
  connectOk : Bool
  sendOkOk : Bool
deriving DecidableEq, Repr

/-- How a session of `handle_socket` ends: `panicked` models a Rust panic
(out-of-bounds index or a failed `unwrap`), `aborted` models an early
`return`, `relayed` means the session reached `copy_bidirectional`. -/
inductive Outcome where
  | panicked
  | aborted
  | relayed
deriving DecidableEq, Repr

/-- Observable trace of one `handle_socket` session: the binary replies
passed to `socket.send` in order, the address string passed to
`TcpStream::connect` (if the code reached the connect call), and how the
session ended. -/
structure Trace where
  sent : List (List Nat)
  connectAttempt : Option (List Nat)
  outcome : Outcome
deriving DecidableEq, Repr

/-- Decoded SOCKS5 target address: the structured intermediate values
(`dst_addr`, `dst_port`) that `handle_socket` computes before formatting
them into the connect string. For `v6` the eight fields are the 16-bit
groups the code assembles from consecutive byte pairs. -/
inductive TargetAddress where
  | v4 (a b c d : Nat) (port : Nat)
  | v6 (g0 g1 g2 g3 g4 g5 g6 g7 : Nat) (port : Nat)
  | domain (name : List Nat) (port : Nat)
deriving DecidableEq, Repr

/-- Result of the address-decoding `match atyp` block (lib.rs lines
104-152): `malformed` and `unsupported` are the early-return paths,
`panicked` models the out-of-bounds read of `buf[4]` and the
`from_utf8(..).unwrap()` panic, `ok` carries the decoded target. -/
inductive DecodeResult where
  | malformed
  | unsupported
  | panicked
  | ok (t : TargetAddress)
deriving DecidableEq, Repr

/-- Model of `BigEndian::read_u16(&buf[i..])`: the first two bytes of the
slice starting at `i`, combined big-endian. -/
def read_u16 (buf : List Nat) (i : Nat) : Nat :=
  (buf.drop i).getD 0 0 * 256 + (buf.drop i).getD 1 0

/-- Modelled from the spec: the request's domain-name bytes "must be valid
UTF-8, else malformed". The code delegates this check to the library
function `std::str::from_utf8`, which is outside src/; this definition is
the standard UTF-8 well-formedness predicate that function implements
(RFC 3629: no overlong forms, no surrogates, nothing above U+10FFFF). -/
def utf8Valid : List Nat → Bool
  | [] => true
  | b :: rest =>
    if b < 128 then utf8Valid rest
    else if b < 194 then false
    else if b < 224 then
      match rest with
      | b1 :: rest1 => decide (128 ≤ b1 ∧ b1 < 192) && utf8Valid rest1
      | [] => false
    else if b < 240 then
      match rest with
      | b1 :: b2 :: rest2 =>
        (if b = 224 then decide (160 ≤ b1 ∧ b1 < 192)
         else if b = 237 then decide (128 ≤ b1 ∧ b1 < 160)
         else decide (128 ≤ b1 ∧ b1 < 192)) &&
        decide (128 ≤ b2 ∧ b2 < 192) && utf8Valid rest2
      | _ => false
    else if b < 245 then
      match rest with
      | b1 :: b2 :: b3 :: rest3 =>
        (if b = 240 then decide (144 ≤ b1 ∧ b1 < 192)
         else if b = 244 then decide (128 ≤ b1 ∧ b1 < 144)
         else decide (128 ≤ b1 ∧ b1 < 192)) &&
        decide (128 ≤ b2 ∧ b2 < 192) && decide (128 ≤ b3 ∧ b3 < 192) &&
        utf8Valid rest3
      | _ => false
    else false

/-- Decimal rendering of a number, as the ASCII bytes that Rust's
`Display for u16` / `to_string` produce. -/
def natDecimal (n : Nat) : List Nat := (Nat.toDigits 10 n).map Char.toNat

/-- Lowercase-hex rendering of one IPv6 group, as ASCII bytes. -/
def hexGroup (n : Nat) : List Nat := (Nat.toDigits 16 n).map Char.toNat

/-- Modelled from the spec: "Domain target is serialized for downstream
connection as name:port; IP targets use standard socket-address textual
form". The code produces the string with `SocketAddr::to_string` (library
code outside src/) for IP targets and with explicit `push_str` calls for
domains. Byte 46 is the dot, 58 the colon, 91 and 93 the brackets. The
IPv6 form here is the plain uncompressed eight-group form; no claim
inspects it. -/
def serializeTarget : TargetAddress → List Nat
  | .v4 a b c d port =>
      natDecimal a ++ [46] ++ natDecimal b ++ [46] ++ natDecimal c ++ [46] ++
      natDecimal d ++ [58] ++ natDecimal port
  | .v6 g0 g1 g2 g3 g4 g5 g6 g7 port =>
      [91] ++ hexGroup g0 ++ [58] ++ hexGroup g1 ++ [58] ++ hexGroup g2 ++ [58] ++
      hexGroup g3 ++ [58] ++ hexGroup g4 ++ [58] ++ hexGroup g5 ++ [58] ++
      hexGroup g6 ++ [58] ++ hexGroup g7 ++ [93, 58] ++ natDecimal port
  | .domain name port => name ++ [58] ++ natDecimal port

/-- Model of the `match atyp` address-decoding block of `handle_socket`
(lib.rs lines 104-152). The caller guarantees `4 ≤ buf.length`. In the
domain arm the code evaluates `buf[4]` before any length check, so a
request with no length byte (total length 4) panics; it then slices
`&buf[5..offset]` and calls `from_utf8(..).unwrap()`, so a name that is
not valid UTF-8 also panics. -/
def decodeAddr (buf : List Nat) : DecodeResult :=
  if buf.getD 3 0 = 1 then
    if buf.length ≠ 10 then .malformed
    else .ok (.v4 (buf.getD 4 0) (buf.getD 5 0) (buf.getD 6 0) (buf.getD 7 0)
      (read_u16 buf 8))
  else if buf.getD 3 0 = 3 then
    if buf.length < 5 then .panicked
    else
      let offset := 4 + 1 + buf.getD 4 0
      if offset + 2 ≠ buf.length then .malformed
      else if utf8Valid ((buf.drop 5).take (buf.getD 4 0)) then
        .ok (.domain ((buf.drop 5).take (buf.getD 4 0)) (read_u16 buf offset))
      else .panicked
  else if buf.getD 3 0 = 4 then
    if buf.length ≠ 22 then .malformed
    else .ok (.v6
      (buf.getD 4 0 * 256 + buf.getD 5 0) (buf.getD 6 0 * 256 + buf.getD 7 0)
      (buf.getD 8 0 * 256 + buf.getD 9 0) (buf.getD 10 0 * 256 + buf.getD 11 0)
      (buf.getD 12 0 * 256 + buf.getD 13 0) (buf.getD 14 0 * 256 + buf.getD 15 0)
      (buf.getD 16 0 * 256 + buf.getD 17 0) (buf.getD 18 0 * 256 + buf.getD 19 0)
      (read_u16 buf 20))
  else .unsupported

/-- Reply sent after a valid greeting: version 5, no authentication. -/
def greetingReply : List Nat := [5, 0]

/-- Reply sent for a request whose command is not CONNECT. -/
def cmdUnsupportedReply : List Nat := [5, 7, 0, 1, 0, 0, 0, 0, 0, 0]

/-- Reply sent for a request whose address type is not 1, 3 or 4. -/
def atypUnsupportedReply : List Nat := [5, 8, 0, 1, 0, 0, 0, 0, 0, 0]

/-- Reply sent when the TCP connection to the target fails. -/
def connectFailedReply : List Nat := [5, 1, 0, 1, 0, 0, 0, 0, 0, 0]

/-- Reply sent when the TCP connection to the target succeeds. -/
def successReply : List Nat := [5, 0, 0, 1, 0, 0, 0, 0, 0, 0]

/-- Model of the request half of `handle_socket` (lib.rs lines 65-181),
entered after the greeting reply was sent successfully: receive the
request message, validate length, version and command, decode the target
address, attempt the TCP connection and send the final reply. The traced
`sent` list holds only the replies of this phase. -/
def requestPhase (env : Env) : Trace :=
  match env.msg2 with
  | .binary buf =>
    if buf.length < 4 then ⟨[], none, .aborted⟩
    else if buf.getD 0 0 ≠ 5 then ⟨[], none, .aborted⟩
    else if buf.getD 1 0 ≠ 1 then ⟨[cmdUnsupportedReply], none, .aborted⟩
    else
      match decodeAddr buf with
      | .malformed => ⟨[], none, .aborted⟩
      | .panicked => ⟨[], none, .panicked⟩
      | .unsupported => ⟨[atypUnsupportedReply], none, .aborted⟩
      | .ok t =>
        let addr := serializeTarget t
        if env.connectOk then
          if env.sendOkOk then ⟨[successReply], some addr, .relayed⟩
          else ⟨[successReply], some addr, .aborted⟩
        else ⟨[connectFailedReply], some addr, .aborted⟩
  | _ => ⟨[], none, .aborted⟩

/-- Model of `handle_socket` (lib.rs lines 38-181). The greeting check is
the source line `if 1 + 1 + (buf[1] as usize) != buf.len() || buf[0] != 5`;
evaluating `buf[1]` on a message shorter than 2 bytes is an out-of-bounds
index, modelled as the `panicked` outcome. On a valid greeting the reply
`[5, 0]` is sent; if that send fails the session returns, otherwise the
request phase runs. -/
def handle_socket (env : Env) : Trace :=
  match env.msg1 with
  | .binary g =>
    if g.length < 2 then ⟨[], none, .panicked⟩
    else if 1 + 1 + g.getD 1 0 ≠ g.length then ⟨[], none, .aborted⟩
    else if g.getD 0 0 ≠ 5 then ⟨[], none, .aborted⟩
    else if env.send1Ok then
      let t := requestPhase env
      ⟨greetingReply :: t.sent, t.connectAttempt, t.outcome⟩
    else ⟨[greetingReply], none, .aborted⟩
  | _ => ⟨[], none, .aborted⟩

/-- Model of `tokio::io::ReadBuf`: a caller-provided buffer with a fixed
capacity and the bytes filled so far. -/
structure ReadBuf where
  capacity : Nat
  filled : List Nat
deriving DecidableEq, Repr

/-- Remaining capacity of a `ReadBuf`. -/
def ReadBuf.remaining (b : ReadBuf) : Nat := b.capacity - b.filled.length

/-- Model of `ReadBuf::put_slice`: appends the whole slice, panicking
(modelled as `none`) when the slice is longer than the remaining
capacity — this is the documented contract of the tokio method the
adapter calls. -/
def ReadBuf.put_slice (b : ReadBuf) (data : List Nat) : Option ReadBuf :=
  if data.length ≤ b.remaining then some ⟨b.capacity, b.filled ++ data⟩ else none

/-- Ready item produced by polling the underlying WebSocket stream inside
`poll_read`: a binary message, some other message kind, a stream error,
or `None` (the channel closed). -/
inductive PollItem where
  | binary (data : List Nat)
  | nonBinary
  | streamError
  | closed
deriving DecidableEq, Repr

/-- Kind of `std::io::Error` the adapter constructs. -/
inductive ErrorKind where
  | invalidData
  | connectionAborted
deriving DecidableEq, Repr

/-- Result of one `poll_read` call on a ready item: success with the
updated buffer, an `io::Error`, or a panic from `put_slice`. -/
inductive ReadResult where
  | ok (buf : ReadBuf)
  | ioError (kind : ErrorKind)
  | panicked
deriving DecidableEq, Repr

/-- Model of `WebSocketConnection::poll_read` (lib.rs lines 186-221) on a
ready poll item: a binary message is copied whole into the caller's
buffer with `put_slice`; a non-binary message yields an InvalidData
error; a stream error yields a ConnectionAborted error; a closed channel
(`None`) yields an InvalidData error. -/
def poll_read (item : PollItem) (buf : ReadBuf) : ReadResult :=
  match item with
  | .binary data =>
    match buf.put_slice data with
    | some b2 => .ok b2
    | none => .panicked
  | .nonBinary => .ioError .invalidData
  | .streamError => .ioError .connectionAborted
  | .closed => .ioError .invalidData

/-- Big-endian two-byte encoding of a 16-bit port. -/
def encodePort (port : Nat) : List Nat := [port / 256, port % 256]

/-- Big-endian two-byte encoding of one 16-bit IPv6 group. -/
def encodeGroup (g : Nat) : List Nat := [g / 256, g % 256]

/-- Modelled from the spec: the request wire format "[0x05, cmd, 0x00,
atyp, addr..., port_hi, port_lo]" with the address encodings of the
Address Decoder section — the bytes the decoder "would itself encode" for
a given target. The repository contains no encoder; this definition
follows the spec's wire-format words. -/
def encodeRequest : TargetAddress → List Nat
  | .v4 a b c d port => [5, 1, 0, 1, a, b, c, d] ++ encodePort port
  | .v6 g0 g1 g2 g3 g4 g5 g6 g7 port =>
      [5, 1, 0, 4] ++ encodeGroup g0 ++ encodeGroup g1 ++ encodeGroup g2 ++
      encodeGroup g3 ++ encodeGroup g4 ++ encodeGroup g5 ++ encodeGroup g6 ++
      encodeGroup g7 ++ encodePort port
  | .domain name port => [5, 1, 0, 3, name.length] ++ name ++ encodePort port

/-- Validity of a target for the round-trip property: byte-sized IPv4
components, 16-bit IPv6 groups, 16-bit port, and a non-empty valid-UTF-8
domain of at most 255 bytes. -/
def validTargetB : TargetAddress → Bool
  | .v4 a b c d port =>
      decide (a < 256) && decide (b < 256) && decide (c < 256) &&
      decide (d < 256) && decide (port < 65536)
  | .v6 g0 g1 g2 g3 g4 g5 g6 g7 port =>
      decide (g0 < 65536) && decide (g1 < 65536) && decide (g2 < 65536) &&
      decide (g3 < 65536) && decide (g4 < 65536) && decide (g5 < 65536) &&
      decide (g6 < 65536) && decide (g7 < 65536) && decide (port < 65536)
  | .domain name port =>
      !name.isEmpty && utf8Valid name && decide (name.length ≤ 255) &&
      decide (port < 65536)

/-- Helper: indexing into a dropped list shifts the index. -/
theorem getD_drop_add (l : List Nat) (i j : Nat) :
    (l.drop i).getD j 0 = l.getD (i + j) 0 := by
  induction l generalizing i j with
  | nil => simp
  | cons a l ih =>
    cases i with
    | zero => simp
    | succ i =>
      have h : i + 1 + j = (i + j) + 1 := by omega
      simp [h, ih i j]

/-- Helper: the two bytes read by read_u16 are the bytes at positions i
and i + 1. -/
theorem read_u16_eq_getD (buf : List Nat) (i : Nat) :
    read_u16 buf i = buf.getD i 0 * 256 + buf.getD (i + 1) 0 := by
  simp [read_u16, getD_drop_add]

/-- Helper: the IPv4 arm of the decoder on a request of total length 10. -/
theorem decodeAddr_v4_ok (buf : List Nat) (ha : buf.getD 3 0 = 1)
    (hl : buf.length = 10) :
    decodeAddr buf = .ok (.v4 (buf.getD 4 0) (buf.getD 5 0) (buf.getD 6 0)
      (buf.getD 7 0) (read_u16 buf 8)) := by
  simp only [decodeAddr]
  rw [if_pos ha, if_neg (by omega : ¬ buf.length ≠ 10)]

/-- Helper: the IPv4 arm of the decoder rejects any other total length. -/
theorem decodeAddr_v4_malformed (buf : List Nat) (ha : buf.getD 3 0 = 1)
    (hl : buf.length ≠ 10) :
    decodeAddr buf = .malformed := by
  simp only [decodeAddr]
  rw [if_pos ha, if_pos hl]

/-- Helper: the domain arm of the decoder on a request of exactly the
right length whose name bytes are valid UTF-8. -/
theorem decodeAddr_domain_ok (buf : List Nat) (n : Nat)
    (ha : buf.getD 3 0 = 3) (hn : buf.getD 4 0 = n)
    (hl : buf.length = 4 + 1 + n + 2)
    (hu : utf8Valid ((buf.drop 5).take n) = true) :
    decodeAddr buf = .ok (.domain ((buf.drop 5).take n)
      (read_u16 buf (4 + 1 + n))) := by
  have h1 : ¬ buf.getD 3 0 = 1 := by omega
  have h2 : ¬ buf.length < 5 := by omega
  simp only [decodeAddr]
  rw [if_neg h1, if_pos ha, if_neg h2, hn,
    if_neg (by omega : ¬ (4 + 1 + n + 2 ≠ buf.length)), if_pos hu]

/-- Claim C3: a syntactically well-sized domain request (total length
4+1+n+2) whose n name bytes are not valid UTF-8 does not produce
MalformedRequest with a silent abort — the code calls
from_utf8(..).unwrap() on those bytes, which panics. -/
theorem claim3_theorem (buf : List Nat) (n : Nat)
    (ha : buf.getD 3 0 = 3) (hn : buf.getD 4 0 = n)
    (hl : buf.length = 4 + 1 + n + 2)
    (hu : utf8Valid ((buf.drop 5).take n) = false) :
    decodeAddr buf = .panicked ∧ decodeAddr buf ≠ .malformed := by
  have h1 : ¬ buf.getD 3 0 = 1 := by omega
  have h2 : ¬ buf.length < 5 := by omega
  have hmain : decodeAddr buf = .panicked := by
    simp only [decodeAddr]
    rw [if_neg h1, if_pos ha, if_neg h2, hn,
      if_neg (by omega : ¬ (4 + 1 + n + 2 ≠ buf.length)),
      if_neg (by simp [hu])]
  exact ⟨hmain, by rw [hmain]; decide⟩

/-- Claim C3, witness: the request [5, 1, 0, 3, 1, 255, 0, 80] has the
right total length for a one-byte domain name, but byte 255 is not valid
UTF-8, and the decoder panics instead of yielding MalformedRequest. -/
theorem claim3_witness :
    decodeAddr [5, 1, 0, 3, 1, 255, 0, 80] = .panicked ∧
    decodeAddr [5, 1, 0, 3, 1, 255, 0, 80] ≠ .malformed :=
  claim3_theorem [5, 1, 0, 3, 1, 255, 0, 80] 1 rfl rfl rfl (by decide)

/-- Claim C4: for a domain request (atyp 3), (a) a request of total
length 4 — too short to contain the name-length byte — makes the code
panic on the out-of-bounds read of byte 4 instead of rejecting it as
malformed; (b) a request whose total length differs from 4+1+n+2 is
rejected as malformed; (c) one of exactly that length with a valid-UTF-8
name decodes to the domain equal to the n name bytes with the big-endian
port from the final two bytes, serialized for connection as name, colon
(byte 58), decimal port. -/
theorem claim4_theorem (buf : List Nat) (n : Nat)
    (ha : buf.getD 3 0 = 3) (hn : buf.getD 4 0 = n) :
    (buf.length = 4 → decodeAddr buf = .panicked)
  ∧ (5 ≤ buf.length → buf.length ≠ 4 + 1 + n + 2 → decodeAddr buf = .malformed)
  ∧ (buf.length = 4 + 1 + n + 2 → utf8Valid ((buf.drop 5).take n) = true →
      decodeAddr buf = .ok (.domain ((buf.drop 5).take n)
        (buf.getD (4 + 1 + n) 0 * 256 + buf.getD (4 + 1 + n + 1) 0)) ∧
      serializeTarget (.domain ((buf.drop 5).take n)
          (buf.getD (4 + 1 + n) 0 * 256 + buf.getD (4 + 1 + n + 1) 0)) =
        (buf.drop 5).take n ++ [58] ++
        natDecimal (buf.getD (4 + 1 + n) 0 * 256 + buf.getD (4 + 1 + n + 1) 0)) := by
  have h1 : ¬ buf.getD 3 0 = 1 := by omega
  refine ⟨?_, ?_, ?_⟩
  · intro h4
    simp only [decodeAddr]
    rw [if_neg h1, if_pos ha, if_pos (by omega : buf.length < 5)]
  · intro h5 hne
    simp only [decodeAddr]
    rw [if_neg h1, if_pos ha, if_neg (by omega : ¬ buf.length < 5), hn,
      if_pos (by omega : 4 + 1 + n + 2 ≠ buf.length)]
  · intro hl hu
    have hok := decodeAddr_domain_ok buf n ha hn hl hu
    rw [read_u16_eq_getD] at hok
    exact ⟨hok, by simp [serializeTarget]⟩

/-- Claim C4, witness: the nine-byte request [5, 1, 0, 3, 2, 97, 98, 0,
80] (name "ab", port 80) decodes to that domain and port; the witness
also instantiates the length-4 panic conjunct and the wrong-length
malformed conjunct at this input (both antecedents are false there). -/
theorem claim4_witness :
    (([5, 1, 0, 3, 2, 97, 98, 0, 80] : List Nat).length = 4 →
      decodeAddr [5, 1, 0, 3, 2, 97, 98, 0, 80] = .panicked)
  ∧ (5 ≤ ([5, 1, 0, 3, 2, 97, 98, 0, 80] : List Nat).length →
      ([5, 1, 0, 3, 2, 97, 98, 0, 80] : List Nat).length ≠ 4 + 1 + 2 + 2 →
      decodeAddr [5, 1, 0, 3, 2, 97, 98, 0, 80] = .malformed)
  ∧ (([5, 1, 0, 3, 2, 97, 98, 0, 80] : List Nat).length = 4 + 1 + 2 + 2 →
      utf8Valid [97, 98] = true →
      decodeAddr [5, 1, 0, 3, 2, 97, 98, 0, 80] = .ok (.domain [97, 98] 80) ∧
      serializeTarget (.domain [97, 98] 80) = [97, 98] ++ [58] ++ natDecimal 80) :=
  claim4_theorem [5, 1, 0, 3, 2, 97, 98, 0, 80] 2 rfl rfl

/-- Helper: after a valid binary greeting whose reply send succeeds, the
session trace is the greeting reply followed by the request phase. -/
theorem handle_socket_greeting_pass (env : Env) (g : List Nat)
    (hm : env.msg1 = .binary g) (h0 : g.getD 0 0 = 5)
    (hl : g.length = 2 + g.getD 1 0) (hs : env.send1Ok = true) :
    handle_socket env = ⟨greetingReply :: (requestPhase env).sent,
      (requestPhase env).connectAttempt, (requestPhase env).outcome⟩ := by
  simp only [handle_socket, hm]
  rw [if_neg (by omega : ¬ g.length < 2),
    if_neg (by omega : ¬ (1 + 1 + g.getD 1 0 ≠ g.length)),
    if_neg (by omega : ¬ (g.getD 0 0 ≠ 5)), if_pos hs]

/-- Claim C2: a valid greeting (byte 0 is 5 and total length is 2 plus
byte 1) makes the session send [5, 0] as its first reply; an invalid
greeting of length at least 2 is dropped silently — no reply, clean
return; but a binary greeting shorter than 2 bytes makes the code
evaluate buf[1] out of bounds and panic instead of returning cleanly. -/
theorem claim2_theorem (env : Env) (g : List Nat) (hm : env.msg1 = .binary g) :
    ((g.getD 0 0 = 5 ∧ g.length = 2 + g.getD 1 0) →
      (handle_socket env).sent.head? = some greetingReply)
  ∧ ((2 ≤ g.length ∧ ¬(g.getD 0 0 = 5 ∧ g.length = 2 + g.getD 1 0)) →
      handle_socket env = ⟨[], none, .aborted⟩)
  ∧ (g.length < 2 → handle_socket env = ⟨[], none, .panicked⟩) := by
  refine ⟨?_, ?_, ?_⟩
  · rintro ⟨h0, hl⟩
    by_cases hs : env.send1Ok = true
    · rw [handle_socket_greeting_pass env g hm h0 hl hs]
      rfl
    · simp only [handle_socket, hm]
      rw [if_neg (by omega : ¬ g.length < 2),
        if_neg (by omega : ¬ (1 + 1 + g.getD 1 0 ≠ g.length)),
        if_neg (by omega : ¬ (g.getD 0 0 ≠ 5)), if_neg hs]
      rfl
  · rintro ⟨h2, hnab⟩
    simp only [handle_socket, hm]
    rw [if_neg (by omega : ¬ g.length < 2)]
    by_cases hl : 1 + 1 + g.getD 1 0 = g.length
    · have h0 : g.getD 0 0 ≠ 5 := fun h0 => hnab ⟨h0, by omega⟩
      rw [if_neg (by omega : ¬ (1 + 1 + g.getD 1 0 ≠ g.length)), if_pos h0]
    · rw [if_pos hl]
  · intro h1
    simp only [handle_socket, hm]
    rw [if_pos h1]

/-- Claim C2, witness at the one-byte greeting [5]: the valid-greeting
and invalid-but-well-sized conjuncts hold vacuously there, and the third
conjunct shows the session panics on this greeting, with no reply sent. -/
theorem claim2_witness :
    ((([5] : List Nat).getD 0 0 = 5 ∧
        ([5] : List Nat).length = 2 + ([5] : List Nat).getD 1 0) →
      (handle_socket ⟨.binary [5], true, .closed, true, true, true⟩).sent.head? =
        some greetingReply)
  ∧ ((2 ≤ ([5] : List Nat).length ∧
        ¬(([5] : List Nat).getD 0 0 = 5 ∧
          ([5] : List Nat).length = 2 + ([5] : List Nat).getD 1 0)) →
      handle_socket ⟨.binary [5], true, .closed, true, true, true⟩ =
        ⟨[], none, .aborted⟩)
  ∧ (([5] : List Nat).length < 2 →
      handle_socket ⟨.binary [5], true, .closed, true, true, true⟩ =
        ⟨[], none, .panicked⟩) :=
  claim2_theorem ⟨.binary [5], true, .closed, true, true, true⟩ [5] rfl

/-- Claim C5: after a valid greeting, a request with version 5, command
1 and address type 1 decodes, when its total length is exactly 10, to the
IPv4 address in bytes 4 to 7 with the big-endian port of bytes 8 and 9,
and the connect call receives its standard textual form; any other total
length is dropped silently — no further reply, no connect attempt. -/
theorem claim5_theorem (env : Env) (g buf : List Nat)
    (hm1 : env.msg1 = .binary g) (hg0 : g.getD 0 0 = 5)
    (hgl : g.length = 2 + g.getD 1 0) (hs1 : env.send1Ok = true)
    (hm2 : env.msg2 = .binary buf) (hlen : 4 ≤ buf.length)
    (hv : buf.getD 0 0 = 5) (hcm : buf.getD 1 0 = 1) (hat : buf.getD 3 0 = 1) :
    (buf.length = 10 →
      (handle_socket env).connectAttempt = some (serializeTarget
        (.v4 (buf.getD 4 0) (buf.getD 5 0) (buf.getD 6 0) (buf.getD 7 0)
          (buf.getD 8 0 * 256 + buf.getD 9 0))))
  ∧ (buf.length ≠ 10 →
      (handle_socket env).sent = [greetingReply] ∧
      (handle_socket env).connectAttempt = none ∧
      (handle_socket env).outcome = .aborted) := by
  rw [handle_socket_greeting_pass env g hm1 hg0 hgl hs1]
  constructor
  · intro h10
    have hd := decodeAddr_v4_ok buf hat h10
    rw [read_u16_eq_getD] at hd
    simp only [requestPhase, hm2]
    rw [if_neg (by omega : ¬ buf.length < 4),
      if_neg (by omega : ¬ (buf.getD 0 0 ≠ 5)),
      if_neg (by omega : ¬ (buf.getD 1 0 ≠ 1)), hd]
    cases hco : env.connectOk <;> cases hso : env.sendOkOk <;> simp
  · intro hne
    have hd := decodeAddr_v4_malformed buf hat hne
    simp only [requestPhase, hm2]
    rw [if_neg (by omega : ¬ buf.length < 4),
      if_neg (by omega : ¬ (buf.getD 0 0 ≠ 5)),
      if_neg (by omega : ¬ (buf.getD 1 0 ≠ 1)), hd]
    exact ⟨rfl, rfl, rfl⟩

/-- Claim C5, witness: connecting to 127.0.0.1:80 through the session,
the connect call receives the textual form of that socket address. -/
theorem claim5_witness :
    (([5, 1, 0, 1, 127, 0, 0, 1, 0, 80] : List Nat).length = 10 →
      (handle_socket ⟨.binary [5, 0], true,
          .binary [5, 1, 0, 1, 127, 0, 0, 1, 0, 80], true, true, true⟩).connectAttempt =
        some (serializeTarget (.v4 127 0 0 1 80)))
  ∧ (([5, 1, 0, 1, 127, 0, 0, 1, 0, 80] : List Nat).length ≠ 10 →
      (handle_socket ⟨.binary [5, 0], true,
          .binary [5, 1, 0, 1, 127, 0, 0, 1, 0, 80], true, true, true⟩).sent =
        [greetingReply] ∧
      (handle_socket ⟨.binary [5, 0], true,
          .binary [5, 1, 0, 1, 127, 0, 0, 1, 0, 80], true, true, true⟩).connectAttempt =
        none ∧
      (handle_socket ⟨.binary [5, 0], true,
          .binary [5, 1, 0, 1, 127, 0, 0, 1, 0, 80], true, true, true⟩).outcome =
        .aborted) :=
  claim5_theorem ⟨.binary [5, 0], true, .binary [5, 1, 0, 1, 127, 0, 0, 1, 0, 80],
    true, true, true⟩ [5, 0] [5, 1, 0, 1, 127, 0, 0, 1, 0, 80]
    rfl rfl rfl rfl rfl (by decide) rfl rfl rfl

/-- Claim C6: after a valid greeting, a request of length at least 4 with
version byte 5 and a command byte other than 1 makes the session send
exactly the command-not-supported reply [5, 7, 0, 1, 0, 0, 0, 0, 0, 0]
after the greeting reply, attempt no TCP connection, and end. The
theorem holds for every environment value of the discarded send result,
so a failure of this reply send is not escalated. -/
theorem claim6_theorem (env : Env) (g buf : List Nat)
    (hm1 : env.msg1 = .binary g) (hg0 : g.getD 0 0 = 5)
    (hgl : g.length = 2 + g.getD 1 0) (hs1 : env.send1Ok = true)
    (hm2 : env.msg2 = .binary buf) (hlen : 4 ≤ buf.length)
    (hv : buf.getD 0 0 = 5) (hcm : buf.getD 1 0 ≠ 1) :
    (handle_socket env).sent = [greetingReply, cmdUnsupportedReply] ∧
    (handle_socket env).connectAttempt = none ∧
    (handle_socket env).outcome = .aborted := by
  rw [handle_socket_greeting_pass env g hm1 hg0 hgl hs1]
  simp only [requestPhase, hm2]
  rw [if_neg (by omega : ¬ buf.length < 4),
    if_neg (by omega : ¬ (buf.getD 0 0 ≠ 5)), if_pos hcm]
  exact ⟨rfl, rfl, rfl⟩

/-- Claim C6, witness at the BIND request [5, 2, 0, 1, 127, 0, 0, 1, 0,
80]: only the command-not-supported reply follows the greeting reply, no
connection is attempted, and the session ends. -/
theorem claim6_witness :
    (handle_socket ⟨.binary [5, 0], true,
        .binary [5, 2, 0, 1, 127, 0, 0, 1, 0, 80], true, true, true⟩).sent =
      [greetingReply, cmdUnsupportedReply] ∧
    (handle_socket ⟨.binary [5, 0], true,
        .binary [5, 2, 0, 1, 127, 0, 0, 1, 0, 80], true, true, true⟩).connectAttempt =
      none ∧
    (handle_socket ⟨.binary [5, 0], true,
        .binary [5, 2, 0, 1, 127, 0, 0, 1, 0, 80], true, true, true⟩).outcome =
      .aborted :=
  claim6_theorem ⟨.binary [5, 0], true, .binary [5, 2, 0, 1, 127, 0, 0, 1, 0, 80],
    true, true, true⟩ [5, 0] [5, 2, 0, 1, 127, 0, 0, 1, 0, 80]
    rfl rfl rfl rfl rfl (by decide) rfl (by decide)

/-- Claim C7: after a valid greeting and a successfully decoded target,
a failed TCP connection attempt makes the session send the general
failure reply [5, 1, 0, 1, 0, 0, 0, 0, 0, 0] after the greeting reply and
end without relaying; the theorem holds for every value of the discarded
send result, so a failure of this reply send is not escalated. -/
theorem claim7_theorem (env : Env) (g buf : List Nat) (t : TargetAddress)
    (hm1 : env.msg1 = .binary g) (hg0 : g.getD 0 0 = 5)
    (hgl : g.length = 2 + g.getD 1 0) (hs1 : env.send1Ok = true)
    (hm2 : env.msg2 = .binary buf) (hlen : 4 ≤ buf.length)
    (hv : buf.getD 0 0 = 5) (hcm : buf.getD 1 0 = 1)
    (hd : decodeAddr buf = .ok t) (hco : env.connectOk = false) :
    (handle_socket env).sent = [greetingReply, connectFailedReply] ∧
    (handle_socket env).connectAttempt = some (serializeTarget t) ∧
    (handle_socket env).outcome = .aborted := by
  rw [handle_socket_greeting_pass env g hm1 hg0 hgl hs1]
  simp only [requestPhase, hm2]
  rw [if_neg (by omega : ¬ buf.length < 4),
    if_neg (by omega : ¬ (buf.getD 0 0 ≠ 5)),
    if_neg (by omega : ¬ (buf.getD 1 0 ≠ 1)), hd]
  simp [hco]

/-- Claim C7, witness: a connect request for 127.0.0.1:80 whose TCP
connection fails yields only the general-failure reply after the
greeting reply; the session ends without reaching the relay. -/
theorem claim7_witness :
    (handle_socket ⟨.binary [5, 0], true,
        .binary [5, 1, 0, 1, 127, 0, 0, 1, 0, 80], true, false, true⟩).sent =
      [greetingReply, connectFailedReply] ∧
    (handle_socket ⟨.binary [5, 0], true,
        .binary [5, 1, 0, 1, 127, 0, 0, 1, 0, 80], true, false, true⟩).connectAttempt =
      some (serializeTarget (.v4 127 0 0 1 80)) ∧
    (handle_socket ⟨.binary [5, 0], true,
        .binary [5, 1, 0, 1, 127, 0, 0, 1, 0, 80], true, false, true⟩).outcome =
      .aborted :=
  claim7_theorem ⟨.binary [5, 0], true, .binary [5, 1, 0, 1, 127, 0, 0, 1, 0, 80],
    true, false, true⟩ [5, 0] [5, 1, 0, 1, 127, 0, 0, 1, 0, 80]
    (.v4 127 0 0 1 80) rfl rfl rfl rfl rfl (by decide) rfl rfl (by decide) rfl

/-- Claim C1, counterexample: a 5-byte binary message arriving when the
caller's buffer has 4 bytes of capacity does not complete with the bytes
truncated to capacity — `put_slice` panics — refuting the claim that the
adapter never writes past the remaining capacity and completes for every
message size. -/
theorem claim1_counterexample :
    poll_read (.binary [1, 2, 3, 4, 5]) ⟨4, []⟩ = .panicked ∧
    poll_read (.binary [1, 2, 3, 4, 5]) ⟨4, []⟩ ≠ .ok ⟨4, [1, 2, 3, 4]⟩ := by
  constructor
  · rfl
  · decide

/-- Claim C1, amended: on a binary message `poll_read` copies the entire
message into the caller's buffer; the read completes, within capacity,
exactly when the message is no longer than the buffer's remaining
capacity, and a longer message makes `put_slice` panic instead of
truncating. -/
theorem claim1_theorem (b : ReadBuf) (data : List Nat)
    (hb : b.filled.length ≤ b.capacity) :
    (data.length ≤ b.remaining →
      poll_read (.binary data) b = .ok ⟨b.capacity, b.filled ++ data⟩ ∧
      (b.filled ++ data).length ≤ b.capacity) ∧
    (b.remaining < data.length → poll_read (.binary data) b = .panicked) := by
  constructor
  · intro h
    constructor
    · simp [poll_read, ReadBuf.put_slice, h]
    · have hr : b.remaining = b.capacity - b.filled.length := rfl
      simp only [List.length_append]
      omega
  · intro h
    have hn : ¬ data.length ≤ b.remaining := by omega
    simp [poll_read, ReadBuf.put_slice, hn]

/-- Claim C1, witness for the amended theorem at a concrete buffer of
capacity 4 holding no bytes yet. -/
theorem claim1_witness :
    (([1, 2] : List Nat).length ≤ (ReadBuf.mk 4 []).remaining →
      poll_read (.binary [1, 2]) ⟨4, []⟩ = .ok ⟨4, [1, 2]⟩ ∧
      (([] : List Nat) ++ [1, 2]).length ≤ 4) ∧
    ((ReadBuf.mk 4 []).remaining < ([1, 2] : List Nat).length →
      poll_read (.binary [1, 2]) ⟨4, []⟩ = .panicked) :=
  claim1_theorem ⟨4, []⟩ [1, 2] (by decide)

/-- Claim C8: a non-binary message makes the read fail with an
InvalidData error, a stream error with a ConnectionAborted error, and a
closed channel (the stream yields no further item) with an InvalidData
error — never a successful (clean end-of-stream) read. -/
theorem claim8_theorem (b bOut : ReadBuf) :
    poll_read .nonBinary b = .ioError .invalidData ∧
    poll_read .closed b = .ioError .invalidData ∧
    poll_read .streamError b = .ioError .connectionAborted ∧
    poll_read .closed b ≠ .ok bOut := by
  refine ⟨rfl, rfl, rfl, by simp [poll_read]⟩

/-- Claim C10: an empty binary message completes the read successfully
with the buffer unchanged — zero bytes delivered, which a byte-stream
caller observes as clean end-of-stream — while a closed channel is an
error instead. -/
theorem claim10_theorem (b : ReadBuf) :
    poll_read (.binary []) b = .ok b ∧
    poll_read .closed b = .ioError .invalidData := by
  constructor
  · simp [poll_read, ReadBuf.put_slice]
  · rfl

/-- Claim C9: for every valid target address — an IPv4 address with
16-bit port, an IPv6 address with 16-bit port, or a non-empty valid-UTF-8
domain of at most 255 bytes with 16-bit port — encoding it into the
SOCKS5 request address field and running the address decoder on that
request reproduces the same target. -/
theorem claim9_theorem (t : TargetAddress) (hv : validTargetB t = true) :
    decodeAddr (encodeRequest t) = .ok t := by
  cases t with
  | v4 a b c d port =>
    have hp : port / 256 * 256 + port % 256 = port := by omega
    show decodeAddr (5 :: 1 :: 0 :: 1 :: a :: b :: c :: d ::
      [port / 256, port % 256]) = .ok (.v4 a b c d port)
    simp [decodeAddr, read_u16, hp]
  | v6 g0 g1 g2 g3 g4 g5 g6 g7 port =>
    have hp : port / 256 * 256 + port % 256 = port := by omega
    have h0 : g0 / 256 * 256 + g0 % 256 = g0 := by omega
    have h1 : g1 / 256 * 256 + g1 % 256 = g1 := by omega
    have h2 : g2 / 256 * 256 + g2 % 256 = g2 := by omega
    have h3 : g3 / 256 * 256 + g3 % 256 = g3 := by omega
    have h4 : g4 / 256 * 256 + g4 % 256 = g4 := by omega
    have h5 : g5 / 256 * 256 + g5 % 256 = g5 := by omega
    have h6 : g6 / 256 * 256 + g6 % 256 = g6 := by omega
    have h7 : g7 / 256 * 256 + g7 % 256 = g7 := by omega
    show decodeAddr (5 :: 1 :: 0 :: 4 ::
      g0 / 256 :: g0 % 256 :: g1 / 256 :: g1 % 256 ::
      g2 / 256 :: g2 % 256 :: g3 / 256 :: g3 % 256 ::
      g4 / 256 :: g4 % 256 :: g5 / 256 :: g5 % 256 ::
      g6 / 256 :: g6 % 256 :: g7 / 256 :: g7 % 256 ::
      [port / 256, port % 256]) = .ok (.v6 g0 g1 g2 g3 g4 g5 g6 g7 port)
    simp [decodeAddr, read_u16, hp, h0, h1, h2, h3, h4, h5, h6, h7]
  | domain name port =>
    have hu : utf8Valid name = true := by
      simp only [validTargetB, Bool.and_eq_true] at hv
      exact hv.1.1.2
    have hp : port / 256 * 256 + port % 256 = port := by omega
    have hb : encodeRequest (.domain name port)
        = 5 :: 1 :: 0 :: 3 :: name.length :: (name ++ [port / 256, port % 256]) := by
      simp [encodeRequest, encodePort]
    have ha : (encodeRequest (.domain name port)).getD 3 0 = 3 := by
      rw [hb]
      rfl
    have hn : (encodeRequest (.domain name port)).getD 4 0 = name.length := by
      rw [hb]
      rfl
    have hl : (encodeRequest (.domain name port)).length
        = 4 + 1 + name.length + 2 := by
      rw [hb]
      simp
      omega
    have ht : ((encodeRequest (.domain name port)).drop 5).take name.length
        = name := by
      rw [hb]
      show (name ++ [port / 256, port % 256]).take name.length = name
      exact List.take_left name _
    have hru : read_u16 (encodeRequest (.domain name port))
        (4 + 1 + name.length) = port := by
      have hsplit : (5 : Nat) :: 1 :: 0 :: 3 :: name.length ::
          (name ++ [port / 256, port % 256])
          = (5 :: 1 :: 0 :: 3 :: name.length :: name) ++
            [port / 256, port % 256] := by
        simp
      have hplen : (5 :: 1 :: 0 :: 3 :: name.length :: name).length
          = 4 + 1 + name.length := by
        simp
        omega
      have hdrop : (encodeRequest (.domain name port)).drop (4 + 1 + name.length)
          = [port / 256, port % 256] := by
        rw [hb, hsplit, ← hplen, List.drop_left]
      rw [read_u16, hdrop]
      simp [hp]
    have hd := decodeAddr_domain_ok (encodeRequest (.domain name port))
      name.length ha hn hl (by rw [ht]; exact hu)
    rw [hd, ht, hru]

/-- Claim C9, witness at the one-byte domain "a" with port 80: the
target is valid, and decoding its own encoding reproduces it. -/
theorem claim9_witness :
    validTargetB (.domain [97] 80) = true ∧
    decodeAddr (encodeRequest (.domain [97] 80)) = .ok (.domain [97] 80) :=
  ⟨by decide, claim9_theorem (.domain [97] 80) (by decide)⟩

end WsSocks
